import Mathlib

/-!
Verification of the session/token lifecycle and rate-limiting subsystem of the
hono-commerce repository. The definitions below are shallow embeddings of the
TypeScript source: `JWTService` (src/infrastructure/auth/jwt.service.ts),
`RateLimitService` (src/infrastructure/cache/rate-limit.service.ts),
`SessionService` (session.service.ts), `AuthService.refreshToken`
(src/application/services/auth.service.ts) and the `authenticate` middleware
(auth.middleware.ts). Times are naturals or integers (milliseconds or seconds
as in the source); JavaScript `Number` semantics (NaN via `Option`, string
coercion) are modelled explicitly where the code depends on them.
-/

namespace HonoCommerce

/-- Error taxonomy from src/types/common.ts; only the kinds reached by the
claims are modelled. -/
inductive AppError where
  | authenticationError (message : String)
  | rateLimitError (message : String)
  | internalError (message : String)
  deriving DecidableEq, Repr

/-! ## JWT service (src/infrastructure/auth/jwt.service.ts)

A signed token is modelled as its payload together with the secret that signed
it; `jose`'s `sign`/`jwtVerify` pair is assumed injective, signature
verification succeeds exactly when the verifying secret equals the signing one,
and a token is expired (per `jose`) when `exp <= now`. -/

/-- The two symmetric secrets configured in env: access and refresh. -/
inductive SecretKind where
  | access
  | refresh
  deriving DecidableEq, Repr

/-- Expiry configuration (config.jwt.accessExpiry / refreshExpiry), in the
same time unit as the clock. -/
structure JwtConfig where
  accessExpiry : Nat
  refreshExpiry : Nat
  deriving DecidableEq, Repr

/-- A signed JWT: claims plus the secret it was signed with. -/
structure SignedJwt where
  userId : String
  sessionId : String
  role : Option String
  iat : Nat
  exp : Nat
  secret : SecretKind
  deriving DecidableEq, Repr

/-- Result of `verifyAccessToken` (the JWTPayload interface). -/
structure JWTPayload where
  userId : String
  sessionId : String
  role : Option String
  iat : Option Nat
  exp : Option Nat
  deriving DecidableEq, Repr

/-- Result of `verifyRefreshToken`. -/
structure RefreshPayload where
  userId : String
  sessionId : String
  deriving DecidableEq, Repr

namespace JWTService

/-- Model of `generateAccessToken`: signs userId/sessionId/role with the access secret,
`setIssuedAt` = now, expiry = configured access expiry. -/
def generateAccessToken (cfg : JwtConfig) (userId sessionId role : String)
    (now : Nat) : SignedJwt :=
  { userId := userId, sessionId := sessionId, role := some role,
    iat := now, exp := now + cfg.accessExpiry, secret := SecretKind.access }

/-- Model of `generateRefreshToken`: signs userId/sessionId (no role) with the refresh
secret, expiry = configured refresh expiry. -/
def generateRefreshToken (cfg : JwtConfig) (userId sessionId : String)
    (now : Nat) : SignedJwt :=
  { userId := userId, sessionId := sessionId, role := none,
    iat := now, exp := now + cfg.refreshExpiry, secret := SecretKind.refresh }

/-- Model of `verifyAccessToken`: signature check against the access secret first
(wrong secret surfaces as "Invalid access token"), then the `jose` expiry
check (`exp <= now` means expired). -/
def verifyAccessToken (token : SignedJwt) (now : Nat) :
    Except AppError JWTPayload :=
  if token.secret = SecretKind.access then
    if token.exp ≤ now then
      Except.error (AppError.authenticationError "Access token has expired")
    else
      Except.ok { userId := token.userId, sessionId := token.sessionId,
                  role := token.role, iat := some token.iat,
                  exp := some token.exp }
  else
    Except.error (AppError.authenticationError "Invalid access token")

/-- Model of `verifyRefreshToken`: same contract with the refresh secret. -/
def verifyRefreshToken (token : SignedJwt) (now : Nat) :
    Except AppError RefreshPayload :=
  if token.secret = SecretKind.refresh then
    if token.exp ≤ now then
      Except.error (AppError.authenticationError "Refresh token has expired")
    else
      Except.ok { userId := token.userId, sessionId := token.sessionId }
  else
    Except.error (AppError.authenticationError "Invalid refresh token")

end JWTService

/-! ## Rate limiter (src/infrastructure/cache/rate-limit.service.ts)

The per-identifier Redis sorted set is modelled as the list of marker scores
(millisecond timestamps); member strings are `time-random` and assumed unique,
so the multiset of scores is all that matters. The pipeline runs
`zremrangebyscore key -inf windowStart` (removes scores `<= windowStart`),
then `zcard` (the count used for the decision, i.e. the count before the
insert), then `zadd` of the current timestamp, then `expire`. -/

/-- Result record of `checkRateLimit`. -/
structure RateLimitResult where
  allowed : Bool
  remaining : Int
  resetAt : Int
  deriving DecidableEq, Repr

namespace RateLimitService

/-- Model of `zremrangebyscore key -inf windowStart`: keeps exactly the markers with
score strictly greater than `windowStart`. -/
def purgeWindow (store : List Int) (windowStart : Int) : List Int :=
  store.filter (fun t => decide (windowStart < t))

/-- The try-branch of `checkRateLimit` (pipeline succeeded): purge, read the
count before insert, insert the new marker, and compute
`allowed = count < maxRequests`, `remaining = max(0, maxRequests - count - 1)`,
`resetAt = now + windowMs`. Returns the result and the new marker set. -/
def checkRateLimitPure (store : List Int) (now maxRequests windowMs : Int) :
    RateLimitResult × List Int :=
  let windowStart := now - windowMs
  let purged := purgeWindow store windowStart
  let count : Int := purged.length
  ({ allowed := decide (count < maxRequests),
     remaining := max 0 (maxRequests - count - 1),
     resetAt := now + windowMs },
   purged ++ [now])

/-- Model of `checkRateLimit` with the store outcome made explicit: `Except.error`
stands for the pipeline throwing, which the catch-branch turns into the
fail-open result. -/
def checkRateLimit (store : Except Unit (List Int))
    (now maxRequests windowMs : Int) :
    RateLimitResult × Except Unit (List Int) :=
  match store with
  | Except.error _ =>
      ({ allowed := true, remaining := maxRequests, resetAt := now + windowMs },
       Except.error ())
  | Except.ok markers =>
      let r := checkRateLimitPure markers now maxRequests windowMs
      (r.1, Except.ok r.2)

end RateLimitService

/-! ## JavaScript Number(string) coercion

`SessionService.createSession` applies `Number(...)` to the value of its
count query, and `isTokenExpired` multiplies a decoded claim by 1000; both
depend on JS numeric coercion, where a failed conversion is NaN. NaN is
modelled as `none`. The model covers trimmed decimal literals (optional
sign, fraction, exponent) and the empty string; exotic forms (hex literals,
Infinity) are not produced by any input in this development. -/

/-- JS whitespace accepted by `Number(` trimming (the subset that occurs). -/
def isJsWs (c : Char) : Bool :=
  c = ' ' || c = '\t' || c = '\n' || c = '\r'

/-- Trim JS whitespace from both ends of a character list. -/
def trimJs (cs : List Char) : List Char :=
  ((cs.dropWhile isJsWs).reverse.dropWhile isJsWs).reverse

/-- Decimal digit value of a character, if it is a digit. -/
def digitVal (c : Char) : Option Nat :=
  if '0' ≤ c ∧ c ≤ '9' then some (c.toNat - 48) else none

/-- Split a leading run of decimal digits off a character list. -/
def takeDigits : List Char → List Nat × List Char
  | [] => ([], [])
  | c :: rest =>
    match digitVal c with
    | some d =>
      let p := takeDigits rest
      (d :: p.1, p.2)
    | none => ([], c :: rest)

/-- Natural number denoted by a digit list (base 10, most significant
first). -/
def digitsToNat (ds : List Nat) : Nat :=
  ds.foldl (fun a d => a * 10 + d) 0

/-- Parse an unsigned JS decimal literal (digits, optional fraction,
optional exponent); the whole input must be consumed, else NaN (`none`). -/
def parseDecimal (cs : List Char) : Option ℚ :=
  let ipr := takeDigits cs
  let fpr : List Nat × List Char :=
    match ipr.2 with
    | '.' :: rest => takeDigits rest
    | _ => ([], ipr.2)
  if ipr.1.isEmpty ∧ fpr.1.isEmpty then none
  else
    let mant : ℚ :=
      (digitsToNat ipr.1 : ℚ) + (digitsToNat fpr.1 : ℚ) / (10 : ℚ) ^ fpr.1.length
    match fpr.2 with
    | [] => some mant
    | e :: rest =>
      if e = 'e' ∨ e = 'E' then
        let signed : Bool × List Char :=
          match rest with
          | '+' :: t => (false, t)
          | '-' :: t => (true, t)
          | t => (false, t)
        let epr := takeDigits signed.2
        if epr.1.isEmpty ∨ ¬ epr.2.isEmpty then none
        else
          let k := digitsToNat epr.1
          some (if signed.1 then mant / (10 : ℚ) ^ k else mant * (10 : ℚ) ^ k)
      else none

/-- JS `Number(s)` for a string: trimmed empty string is 0, otherwise a
signed decimal literal; anything else is NaN (`none`). -/
def jsStringToNumber (s : String) : Option ℚ :=
  match trimJs s.data with
  | [] => some 0
  | '+' :: rest => parseDecimal rest
  | '-' :: rest => (parseDecimal rest).map (fun q => -q)
  | cs => parseDecimal cs

/-! ## JSON values and JavaScript coercions for `decodeToken`

`JWTService.decodeToken` runs `JSON.parse` on the base64url-decoded middle
segment of the token and `isTokenExpired` then evaluates
`!decoded || !decoded.exp` and `decoded.exp * 1000 < Date.now()`; the
behaviour depends on JS truthiness and ToNumber coercion of arbitrary JSON
values, so those are modelled explicitly. -/

/-- A JavaScript value as produced by `JSON.parse` (plus `undefined` for
absent properties). -/
inductive JSValue where
  | undef
  | jsNull
  | bool (b : Bool)
  | num (q : ℚ)
  | str (s : String)
  | arr (elems : List JSValue)
  | obj (fields : List (String × JSValue))

/-- JS truthiness of a value (JSON numbers are finite, so NaN does not
occur here). -/
def truthy : JSValue → Bool
  | JSValue.undef => false
  | JSValue.jsNull => false
  | JSValue.bool b => b
  | JSValue.num q => decide (¬ q = 0)
  | JSValue.str s => decide (¬ s = "")
  | JSValue.arr _ => true
  | JSValue.obj _ => true

/-- JS property access `v[k]`: the last binding of the key on an object
(JSON.parse keeps the last duplicate), `undefined` otherwise. -/
def getField : JSValue → String → JSValue
  | JSValue.obj fs, k =>
    match fs.reverse.find? (fun p => p.1 = k) with
    | some p => p.2
    | none => JSValue.undef
  | _, _ => JSValue.undef

/-- ECMAScript ToNumber on a JSON value, with NaN as `none`. Arrays go
through ToString: a multi-element array joins with commas and is therefore
always NaN; an empty array is the empty string (0); a one-element array is
the element's string image, so it coerces like the element, with inner
null/undefined reading as the empty string (0) and booleans/objects as
non-numeric text (NaN). -/
def toNumber : JSValue → Option ℚ
  | JSValue.undef => none
  | JSValue.jsNull => some 0
  | JSValue.bool b => some (if b then 1 else 0)
  | JSValue.num q => some q
  | JSValue.str s => jsStringToNumber s
  | JSValue.obj _ => none
  | JSValue.arr [] => some 0
  | JSValue.arr [x] =>
    match x with
    | JSValue.undef => some 0
    | JSValue.jsNull => some 0
    | JSValue.num q => some q
    | JSValue.str s => jsStringToNumber s
    | JSValue.bool _ => none
    | JSValue.obj _ => none
    | JSValue.arr l => toNumber (JSValue.arr l)
  | JSValue.arr (_ :: _ :: _) => none

namespace Json

/-- JSON whitespace. -/
def isJsonWs (c : Char) : Bool :=
  c = ' ' || c = '\t' || c = '\n' || c = '\r'

/-- Drop leading JSON whitespace. -/
def skipWs (cs : List Char) : List Char := cs.dropWhile isJsonWs

/-- Hexadecimal digit value. -/
def hexVal (c : Char) : Option Nat :=
  if '0' ≤ c ∧ c ≤ '9' then some (c.toNat - 48)
  else if 'a' ≤ c ∧ c ≤ 'f' then some (c.toNat - 87)
  else if 'A' ≤ c ∧ c ≤ 'F' then some (c.toNat - 55)
  else none

/-- Parse the body of a JSON string after the opening quote, returning the
characters and the remainder. Escapes are those of RFC 8259; an escape for
a surrogate code unit is rejected (Lean characters cannot carry lone
surrogates; no input in this development contains one). Unescaped control
characters are rejected as in `JSON.parse`. -/
def parseStringBody (fuel : Nat) (cs : List Char) :
    Option (List Char × List Char) :=
  match fuel with
  | 0 => none
  | fuel' + 1 =>
    match cs with
    | [] => none
    | '"' :: rest => some ([], rest)
    | '\\' :: e :: rest =>
      let dec : Option (Char × List Char) :=
        match e with
        | '"' => some ('"', rest)
        | '\\' => some ('\\', rest)
        | '/' => some ('/', rest)
        | 'b' => some (Char.ofNat 8, rest)
        | 'f' => some (Char.ofNat 12, rest)
        | 'n' => some ('\n', rest)
        | 'r' => some ('\r', rest)
        | 't' => some ('\t', rest)
        | 'u' =>
          match rest with
          | h1 :: h2 :: h3 :: h4 :: rest2 =>
            match hexVal h1, hexVal h2, hexVal h3, hexVal h4 with
            | some a, some b, some c, some d =>
              let n := ((a * 16 + b) * 16 + c) * 16 + d
              if n < 55296 ∨ 57343 < n then some (Char.ofNat n, rest2)
              else none
            | _, _, _, _ => none
          | _ => none
        | _ => none
      match dec with
      | none => none
      | some p =>
        match parseStringBody fuel' p.2 with
        | none => none
        | some q => some (p.1 :: q.1, q.2)
    | c :: rest =>
      if c.toNat < 32 then none
      else
        match parseStringBody fuel' rest with
        | none => none
        | some q => some (c :: q.1, q.2)

/-- Parse a JSON number (sign, integer part without leading zeros,
optional fraction, optional exponent) into a rational. -/
def parseJsonNumber (cs : List Char) : Option (ℚ × List Char) :=
  let signed : Bool × List Char :=
    match cs with
    | '-' :: t => (true, t)
    | t => (false, t)
  let ipr := takeDigits signed.2
  match ipr.1 with
  | [] => none
  | d0 :: drest =>
    if d0 = 0 ∧ ¬ drest.isEmpty then none
    else
      let fpr : Option (List Nat × List Char) :=
        match ipr.2 with
        | '.' :: t =>
          let p := takeDigits t
          if p.1.isEmpty then none else some p
        | t => some ([], t)
      match fpr with
      | none => none
      | some (fd, r2) =>
        let mant : ℚ :=
          (digitsToNat ipr.1 : ℚ) + (digitsToNat fd : ℚ) / (10 : ℚ) ^ fd.length
        let mant := if signed.1 then -mant else mant
        match r2 with
        | c :: t =>
          if c = 'e' ∨ c = 'E' then
            let esigned : Bool × List Char :=
              match t with
              | '+' :: t2 => (false, t2)
              | '-' :: t2 => (true, t2)
              | t2 => (false, t2)
            let ep := takeDigits esigned.2
            if ep.1.isEmpty then none
            else
              let k := digitsToNat ep.1
              some ((if esigned.1 then mant / (10 : ℚ) ^ k
                     else mant * (10 : ℚ) ^ k), ep.2)
          else some (mant, r2)
        | [] => some (mant, [])

mutual

/-- Parse one JSON value, returning it and the remainder. -/
def parseValue (fuel : Nat) (cs : List Char) : Option (JSValue × List Char) :=
  match fuel with
  | 0 => none
  | fuel' + 1 =>
    match skipWs cs with
    | 'n' :: 'u' :: 'l' :: 'l' :: rest => some (JSValue.jsNull, rest)
    | 't' :: 'r' :: 'u' :: 'e' :: rest => some (JSValue.bool true, rest)
    | 'f' :: 'a' :: 'l' :: 's' :: 'e' :: rest => some (JSValue.bool false, rest)
    | '"' :: rest =>
      match parseStringBody (rest.length + 1) rest with
      | some p => some (JSValue.str (String.mk p.1), p.2)
      | none => none
    | '[' :: rest =>
      match skipWs rest with
      | ']' :: rem => some (JSValue.arr [], rem)
      | _ =>
        match parseElems fuel' rest with
        | some p => some (JSValue.arr p.1, p.2)
        | none => none
    | '{' :: rest =>
      match skipWs rest with
      | '}' :: rem => some (JSValue.obj [], rem)
      | _ =>
        match parseMembers fuel' rest with
        | some p => some (JSValue.obj p.1, p.2)
        | none => none
    | cs2 =>
      match parseJsonNumber cs2 with
      | some p => some (JSValue.num p.1, p.2)
      | none => none

/-- Parse the elements of a non-empty JSON array up to and including the
closing bracket. -/
def parseElems (fuel : Nat) (cs : List Char) :
    Option (List JSValue × List Char) :=
  match fuel with
  | 0 => none
  | fuel' + 1 =>
    match parseValue fuel' cs with
    | none => none
    | some p =>
      match skipWs p.2 with
      | ',' :: rest =>
        match parseElems fuel' rest with
        | none => none
        | some q => some (p.1 :: q.1, q.2)
      | ']' :: rest => some ([p.1], rest)
      | _ => none

/-- Parse the members of a non-empty JSON object up to and including the
closing brace. -/
def parseMembers (fuel : Nat) (cs : List Char) :
    Option (List (String × JSValue) × List Char) :=
  match fuel with
  | 0 => none
  | fuel' + 1 =>
    match skipWs cs with
    | '"' :: rest =>
      match parseStringBody (rest.length + 1) rest with
      | none => none
      | some kp =>
        match skipWs kp.2 with
        | ':' :: rest2 =>
          match parseValue fuel' rest2 with
          | none => none
          | some vp =>
            match skipWs vp.2 with
            | ',' :: rest3 =>
              match parseMembers fuel' rest3 with
              | none => none
              | some q => some ((String.mk kp.1, vp.1) :: q.1, q.2)
            | '}' :: rest3 => some ([(String.mk kp.1, vp.1)], rest3)
            | _ => none
        | _ => none
    | _ => none

end

/-- Model of `JSON.parse`: one value, then only whitespace may remain. Invalid input
(a thrown SyntaxError in JS) is `none`. -/
def jsonParse (s : String) : Option JSValue :=
  match parseValue (s.data.length + 1) s.data with
  | none => none
  | some p => if (skipWs p.2).isEmpty then some p.1 else none

end Json

/-! ## Base64url decoding (decodeToken's Buffer.from pipeline) -/

/-- Characters of the standard base64 alphabet. -/
def isB64Char (c : Char) : Bool :=
  ('A' ≤ c && c ≤ 'Z') || ('a' ≤ c && c ≤ 'z') ||
  ('0' ≤ c && c ≤ '9') || c = '+' || c = '/'

/-- Six-bit value of a base64 alphabet character. -/
def b64Val (c : Char) : Nat :=
  if 'A' ≤ c ∧ c ≤ 'Z' then c.toNat - 65
  else if 'a' ≤ c ∧ c ≤ 'z' then c.toNat - 71
  else if '0' ≤ c ∧ c ≤ '9' then c.toNat + 4
  else if c = '+' then 62
  else 63

/-- Pack a stream of six-bit groups into bytes, dropping trailing bits that
do not fill a byte (Node's lenient base64 decoder). `acc`/`bits` carry the
pending bit buffer. -/
def sextetsToBytes : List Nat → Nat → Nat → List Nat
  | [], _, _ => []
  | v :: rest, acc, bits =>
    let acc' := acc * 64 + v
    let bits' := bits + 6
    if 8 ≤ bits' then
      acc' / 2 ^ (bits' - 8) :: sextetsToBytes rest (acc' % 2 ^ (bits' - 8))
        (bits' - 8)
    else
      sextetsToBytes rest acc' bits'

/-- The `decodeToken` decoding pipeline: base64url chars mapped to the
standard alphabet, `=`-padded, then decoded by `Buffer.from(.., 'base64')`,
which skips characters outside the alphabet (including the padding). -/
def base64urlDecode (cs : List Char) : List Nat :=
  let std := cs.map (fun c => if c = '-' then '+' else if c = '_' then '/' else c)
  let padded := std ++ List.replicate ((4 - std.length % 4) % 4) '='
  sextetsToBytes ((padded.filter isB64Char).map b64Val) 0 0

/-- Model of `String.prototype.split('.')` on a character list. -/
def splitOnDot : List Char → List (List Char)
  | [] => [[]]
  | c :: rest =>
    match splitOnDot rest with
    | [] => [[]]
    | h :: t => if c = '.' then [] :: h :: t else (c :: h) :: t

namespace JWTService

/-- Model of `decodeToken`: split on '.', require exactly three parts with a truthy
(non-empty) middle part, base64url-decode it, `Buffer.toString()` the bytes
(byte-to-character here; the JSON payloads decoded in this development are
ASCII) and `JSON.parse` the result; any failure yields null (`none`). -/
def decodeToken (token : String) : Option JSValue :=
  let parts := splitOnDot token.data
  if parts.length ≠ 3 then none
  else
    match parts.get? 1 with
    | none => none
    | some p =>
      if p.isEmpty then none
      else Json.jsonParse (String.mk ((base64urlDecode p).map
        (fun b => Char.ofNat b)))

/-- Model of `isTokenExpired`: true when `decodeToken` yields null or a payload
without a truthy `exp`; otherwise the JS comparison
`decoded.exp * 1000 < Date.now()`, where a NaN product compares false. -/
def isTokenExpired (token : String) (now : ℚ) : Bool :=
  match decodeToken token with
  | none => true
  | some decoded =>
    if !truthy decoded || !truthy (getField decoded "exp") then true
    else
      match toNumber (getField decoded "exp") with
      | none => false
      | some q => decide (q * 1000 < now)

end JWTService

/-- A three-part token whose middle segment is base64url for the JSON
object with a single member "exp" bound to the string "ab": a decodable
payload whose exp claim is truthy but not numeric. -/
def c9Token : String := "h.eyJleHAiOiJhYiJ9.s"

/-! ## Session service (src/infrastructure/auth/session.service.ts)

The sessions table is a list of rows in physical (insertion) order; the
Redis cache is an association list keyed by session id. A user row carries
the live role used by `getSessionByAccessToken`. Clocks are millisecond
timestamps as `Int`. -/

/-- A row of the sessions table (sessions.schema.ts). -/
structure SessionRow where
  id : String
  userId : String
  accessToken : String
  refreshToken : String
  deviceId : Option String
  userAgent : Option String
  ipAddress : Option String
  expiresAt : Int
  createdAt : Int
  updatedAt : Int
  deriving DecidableEq, Repr

/-- The JSON blob cached under `session:` (userId, tokens, expiresAt). -/
structure CachedSession where
  userId : String
  accessToken : String
  refreshToken : String
  expiresAt : Int
  deriving DecidableEq, Repr

/-- Combined persistent store and Redis cache state for sessions. -/
structure SessionStore where
  db : List SessionRow
  cache : List (String × CachedSession)
  deriving DecidableEq, Repr

/-- What `getSession` returns (id, userId, tokens, expiresAt). -/
structure SessionView where
  id : String
  userId : String
  accessToken : String
  refreshToken : String
  expiresAt : Int
  deriving DecidableEq, Repr

/-- What `getUserSessions` returns per session (device metadata only). -/
structure SessionSummary where
  id : String
  deviceId : Option String
  userAgent : Option String
  ipAddress : Option String
  createdAt : Int
  expiresAt : Int
  deriving DecidableEq, Repr

/-- What `getSessionByAccessToken` returns (id, userId, live role). -/
structure SessionAuthView where
  id : String
  userId : String
  role : String
  deriving DecidableEq, Repr

/-- A row of the users table, with the fields these flows read. -/
structure UserRow where
  id : String
  role : String
  deriving DecidableEq, Repr

namespace SessionService

/-- Redis `get` of a cached session. -/
def cacheGet (cache : List (String × CachedSession)) (k : String) :
    Option CachedSession :=
  (cache.find? (fun p => p.1 = k)).map (fun p => p.2)

/-- Redis `setex`: overwrite the entry for the key. -/
def cacheSet (cache : List (String × CachedSession)) (k : String)
    (v : CachedSession) : List (String × CachedSession) :=
  (k, v) :: cache.filter (fun p => ¬ p.1 = k)

/-- Redis `del` of a cached session. -/
def cacheDel (cache : List (String × CachedSession)) (k : String) :
    List (String × CachedSession) :=
  cache.filter (fun p => ¬ p.1 = k)

/-- Model of `cacheSession`: best-effort cache write of a session blob. -/
def cacheSession (st : SessionStore) (sid : String) (d : CachedSession) :
    SessionStore :=
  { st with cache := cacheSet st.cache sid d }

/-- Insert a row into a list sorted by `createdAt`, before the first row
that is not strictly older (stable). -/
def insertByCreatedAt (r : SessionRow) : List SessionRow → List SessionRow
  | [] => [r]
  | x :: xs =>
    if x.createdAt < r.createdAt then x :: insertByCreatedAt r xs
    else r :: x :: xs

/-- Stable sort by `createdAt` ascending, modelling `orderBy(createdAt)`. -/
def sortByCreatedAt : List SessionRow → List SessionRow
  | [] => []
  | x :: xs => insertByCreatedAt x (sortByCreatedAt xs)

/-- Model of `deleteSession`: delete the row and the cached copy; idempotent. -/
def deleteSession (st : SessionStore) (sid : String) : SessionStore :=
  { db := st.db.filter (fun r => ¬ r.id = sid),
    cache := cacheDel st.cache sid }

/-- Model of `createSession`, as written in the source. The "count" query is
`select({ count: sessions.id })` filtered to live sessions, so each result
row holds a session id under the key `count`; the code then evaluates
`Number(userSessionCount[0]?.count || 0)`, which is `Number` of the first
live session's id string (NaN for a UUID) or 0 when there is none. Only
when that value is at least `maxSessionsPerUser` is the oldest session (by
`createdAt`, over all of the user's sessions) deleted. Then the new row is
inserted and cached. `newId` is the fresh UUID the insert returns. -/
def createSession (st : SessionStore) (userId accessToken refreshToken : String)
    (deviceId userAgent ipAddress : Option String) (expiresAt : Int)
    (now : Int) (newId : String) (maxSessionsPerUser : ℚ) : SessionStore :=
  let liveRows := st.db.filter
    (fun r => r.userId = userId && decide (now < r.expiresAt))
  let count : Option ℚ :=
    match liveRows with
    | [] => some 0
    | r :: _ => if r.id = "" then some 0 else jsStringToNumber r.id
  let exceeded : Bool :=
    match count with
    | none => false
    | some q => decide (maxSessionsPerUser ≤ q)
  let st1 :=
    if exceeded then
      match sortByCreatedAt (st.db.filter (fun r => r.userId = userId)) with
      | [] => st
      | oldest :: _ => deleteSession st oldest.id
    else st
  let row : SessionRow :=
    { id := newId, userId := userId, accessToken := accessToken,
      refreshToken := refreshToken, deviceId := deviceId,
      userAgent := userAgent, ipAddress := ipAddress,
      expiresAt := expiresAt, createdAt := now, updatedAt := now }
  cacheSession { st1 with db := st1.db ++ [row] } newId
    { userId := userId, accessToken := accessToken,
      refreshToken := refreshToken, expiresAt := expiresAt }

/-- Model of `getSession`: cache first, then the table by id (no expiry filter),
repopulating the cache on a database hit. -/
def getSession (st : SessionStore) (sid : String) :
    Option SessionView × SessionStore :=
  match cacheGet st.cache sid with
  | some c =>
    (some { id := sid, userId := c.userId, accessToken := c.accessToken,
            refreshToken := c.refreshToken, expiresAt := c.expiresAt }, st)
  | none =>
    match st.db.find? (fun r => r.id = sid) with
    | none => (none, st)
    | some r =>
      (some { id := r.id, userId := r.userId, accessToken := r.accessToken,
              refreshToken := r.refreshToken, expiresAt := r.expiresAt },
       cacheSession st sid
         { userId := r.userId, accessToken := r.accessToken,
           refreshToken := r.refreshToken, expiresAt := r.expiresAt })

/-- Model of `getUserSessions`: the user's non-expired sessions ordered by creation
time, device metadata only. -/
def getUserSessions (st : SessionStore) (userId : String) (now : Int) :
    List SessionSummary :=
  (sortByCreatedAt (st.db.filter
      (fun r => r.userId = userId && decide (now < r.expiresAt)))).map
    (fun r => { id := r.id, deviceId := r.deviceId, userAgent := r.userAgent,
                ipAddress := r.ipAddress, createdAt := r.createdAt,
                expiresAt := r.expiresAt })

/-- Model of `getSessionByAccessToken`: look the session up by token value, then the
user's current role; `user?.role || 'staff'` falls back to "staff" when the
user row is missing (or its role is the empty string). -/
def getSessionByAccessToken (st : SessionStore) (users : List UserRow)
    (accessToken : String) : Option SessionAuthView :=
  match st.db.find? (fun r => r.accessToken = accessToken) with
  | none => none
  | some s =>
    let role :=
      match users.find? (fun u => u.id = s.userId) with
      | some u => if u.role = "" then "staff" else u.role
      | none => "staff"
    some { id := s.id, userId := s.userId, role := role }

end SessionService

/-! ## Auth flows (auth.middleware.ts and auth.service.ts)

These flows handle sessions whose token columns hold JWT strings written by
`updateSessionTokens`; tokens are the `SignedJwt` values of the JWT model,
compared for (string) equality. A single abstract clock `now : Nat` serves
both the JWT expiry checks and the session `expiresAt` comparisons. -/

/-- A sessions-table row as seen by the auth flows. -/
structure AuthSession where
  id : String
  userId : String
  accessToken : SignedJwt
  refreshToken : SignedJwt
  expiresAt : Nat
  createdAt : Nat
  updatedAt : Nat
  deriving DecidableEq, Repr

/-- The cached session blob in the auth flows. -/
structure AuthCached where
  userId : String
  accessToken : SignedJwt
  refreshToken : SignedJwt
  expiresAt : Nat
  deriving DecidableEq, Repr

/-- Store-plus-cache state for the auth flows. -/
structure AuthState where
  db : List AuthSession
  cache : List (String × AuthCached)
  deriving DecidableEq, Repr

/-- What `getSession` returns in the auth flows. -/
structure AuthSessionView where
  id : String
  userId : String
  accessToken : SignedJwt
  refreshToken : SignedJwt
  expiresAt : Nat
  deriving DecidableEq, Repr

/-- Result pair of the refresh flow. -/
structure TokenPair where
  accessToken : SignedJwt
  refreshToken : SignedJwt
  deriving DecidableEq, Repr

/-- Context values the authenticate middleware attaches on success. -/
structure AuthContext where
  userId : String
  sessionId : String
  role : Option String
  deriving DecidableEq, Repr

namespace AuthFlow

/-- Session renewal window used by the refresh flow: 7 days in ms. -/
def sevenDaysMs : Nat := 604800000

/-- Redis `get` of a cached auth session. -/
def cacheGet (cache : List (String × AuthCached)) (k : String) :
    Option AuthCached :=
  (cache.find? (fun p => p.1 = k)).map (fun p => p.2)

/-- Redis `setex` of a cached auth session. -/
def cacheSet (cache : List (String × AuthCached)) (k : String)
    (v : AuthCached) : List (String × AuthCached) :=
  (k, v) :: cache.filter (fun p => ¬ p.1 = k)

/-- Redis `del` of a cached auth session. -/
def cacheDel (cache : List (String × AuthCached)) (k : String) :
    List (String × AuthCached) :=
  cache.filter (fun p => ¬ p.1 = k)

/-- Model of `SessionService.getSession` specialised to the auth flows: cache-aside
read with no expiry filter. -/
def getSession (st : AuthState) (sid : String) :
    Option AuthSessionView × AuthState :=
  match cacheGet st.cache sid with
  | some c =>
    (some { id := sid, userId := c.userId, accessToken := c.accessToken,
            refreshToken := c.refreshToken, expiresAt := c.expiresAt }, st)
  | none =>
    match st.db.find? (fun r => r.id = sid) with
    | none => (none, st)
    | some r =>
      let cached : AuthCached :=
        { userId := r.userId, accessToken := r.accessToken,
          refreshToken := r.refreshToken, expiresAt := r.expiresAt }
      (some { id := r.id, userId := r.userId, accessToken := r.accessToken,
              refreshToken := r.refreshToken, expiresAt := r.expiresAt },
       { st with cache := cacheSet st.cache sid cached })

/-- Model of `SessionService.deleteSession`: remove the row and the cached copy. -/
def deleteSession (st : AuthState) (sid : String) : AuthState :=
  { db := st.db.filter (fun r => ¬ r.id = sid),
    cache := cacheDel st.cache sid }

/-- Model of `SessionService.updateSessionTokens`: overwrite tokens and expiry in
place, then refresh the cache copy through a `getSession` read. -/
def updateSessionTokens (st : AuthState) (sid : String)
    (newAccess newRefresh : SignedJwt) (newExpiresAt now : Nat) : AuthState :=
  let st1 : AuthState :=
    { st with db := st.db.map (fun r =>
        if r.id = sid then
          { r with accessToken := newAccess, refreshToken := newRefresh,
                   expiresAt := newExpiresAt, updatedAt := now }
        else r) }
  let g := getSession st1 sid
  match g.1 with
  | some s =>
    let cached : AuthCached :=
      { userId := s.userId, accessToken := newAccess,
        refreshToken := newRefresh, expiresAt := newExpiresAt }
    { g.2 with cache := cacheSet g.2.cache sid cached }
  | none => g.2

/-- The `authenticate` middleware after the bearer token has been extracted:
verify the JWT, load the session, reject an expired session (deleting it),
and require the token to equal the session's stored accessToken. -/
def authenticate (tok : SignedJwt) (now : Nat) (st : AuthState) :
    Except AppError AuthContext × AuthState :=
  match JWTService.verifyAccessToken tok now with
  | Except.error e => (Except.error e, st)
  | Except.ok payload =>
    let g := getSession st payload.sessionId
    match g.1 with
    | none =>
      (Except.error (AppError.authenticationError "Session not found"), g.2)
    | some s =>
      if s.expiresAt < now then
        (Except.error (AppError.authenticationError "Session expired"),
         deleteSession g.2 s.id)
      else if ¬ s.accessToken = tok then
        (Except.error (AppError.authenticationError "Invalid token"), g.2)
      else
        (Except.ok { userId := payload.userId, sessionId := payload.sessionId,
                     role := payload.role }, g.2)

/-- Model of `AuthService.refreshToken`: verify the refresh token, load the session by
the embedded sessionId, delete-and-reject an expired session, load the user,
issue a fresh pair, and write it back with a 7-day sliding renewal. The
presented token is never compared with the session's stored refreshToken. -/
def refreshTokenFlow (cfg : JwtConfig) (users : List UserRow)
    (tok : SignedJwt) (now : Nat) (st : AuthState) :
    Except AppError TokenPair × AuthState :=
  match JWTService.verifyRefreshToken tok now with
  | Except.error e => (Except.error e, st)
  | Except.ok payload =>
    let g := getSession st payload.sessionId
    match g.1 with
    | none =>
      (Except.error (AppError.authenticationError "Session not found"), g.2)
    | some session =>
      if session.expiresAt < now then
        (Except.error (AppError.authenticationError "Session expired"),
         deleteSession g.2 session.id)
      else
        match users.find? (fun u => u.id = session.userId) with
        | none =>
          (Except.error (AppError.authenticationError "User not found"), g.2)
        | some user =>
          let newAccess :=
            JWTService.generateAccessToken cfg user.id session.id user.role now
          let newRefresh :=
            JWTService.generateRefreshToken cfg user.id session.id now
          (Except.ok { accessToken := newAccess, refreshToken := newRefresh },
           updateSessionTokens g.2 session.id newAccess newRefresh
             (now + sevenDaysMs) now)

end AuthFlow

/-! ## Concrete states for the session-service claims -/

/-- UUID of the first session in the C1 scenario. -/
def c1IdA : String := "aaaaaaaa-1111-4111-8111-111111111111"

/-- UUID of the second session in the C1 scenario. -/
def c1IdB : String := "bbbbbbbb-2222-4222-8222-222222222222"

/-- UUID of the third session in the C1 scenario. -/
def c1IdC : String := "cccccccc-3333-4333-8333-333333333333"

/-- C1 scenario, step 1: create session A for user U at time 1
(cap configured to 2, all sessions expire at 9999999). -/
def c1Step1 : SessionStore :=
  SessionService.createSession ⟨[], []⟩ "U" "atA" "rtA" none none none
    9999999 1 c1IdA 2

/-- C1 scenario, step 2: create session B for user U at time 2. -/
def c1Step2 : SessionStore :=
  SessionService.createSession c1Step1 "U" "atB" "rtB" none none none
    9999999 2 c1IdB 2

/-- C1 scenario, step 3: create session C for user U at time 3. -/
def c1Step3 : SessionStore :=
  SessionService.createSession c1Step2 "U" "atC" "rtC" none none none
    9999999 3 c1IdC 2

/-- A store holding one session whose `expiresAt` (10) is already in the
past at any later observation time, with an empty cache. -/
def c5Store : SessionStore :=
  ⟨[{ id := "s1", userId := "U", accessToken := "tokA",
      refreshToken := "tokR", deviceId := none, userAgent := none,
      ipAddress := none, expiresAt := 10, createdAt := 1,
      updatedAt := 1 }], []⟩

/-- A store holding one session whose `userId` ("ghost") has no user row. -/
def c10Store : SessionStore :=
  ⟨[{ id := "s9", userId := "ghost", accessToken := "tok9",
      refreshToken := "rtok9", deviceId := none, userAgent := none,
      ipAddress := none, expiresAt := 99, createdAt := 1,
      updatedAt := 1 }], []⟩

/-- JWT configuration used by the concrete auth-flow states: 900 s access
expiry, 604800 s refresh expiry (the defaults 15 m / 7 d). -/
def cfg0 : JwtConfig := ⟨900, 604800⟩

/-- Access token for the C2 witness, bound to session id "sX". -/
def c2Token : SignedJwt := JWTService.generateAccessToken cfg0 "u" "sX" "staff" 0

/-- Refresh token embedded with session id "sE" for the C8 witness. -/
def c8Token : SignedJwt := JWTService.generateRefreshToken cfg0 "u" "sE" 0

/-- An expired session (expiresAt 10) holding matching tokens, for C8. -/
def c8Session : AuthSession :=
  { id := "sE", userId := "u",
    accessToken := JWTService.generateAccessToken cfg0 "u" "sE" "owner" 0,
    refreshToken := c8Token, expiresAt := 10, createdAt := 0, updatedAt := 0 }

/-- Auth state for the C8 witness: the expired session, empty cache. -/
def c8State : AuthState := ⟨[c8Session], []⟩

/-- The refresh token currently stored on session "sR" (issued at 999),
i.e. the result of the latest rotation, for C6. -/
def c6Stored : SignedJwt := JWTService.generateRefreshToken cfg0 "u" "sR" 999

/-- A previously-issued refresh token for the same session (issued at 0),
since rotated away, presented in the C6 witness. -/
def c6Presented : SignedJwt := JWTService.generateRefreshToken cfg0 "u" "sR" 0

/-- A live session whose stored refreshToken is `c6Stored`, for C6. -/
def c6Session : AuthSession :=
  { id := "sR", userId := "u",
    accessToken := JWTService.generateAccessToken cfg0 "u" "sR" "owner" 999,
    refreshToken := c6Stored, expiresAt := 1000000, createdAt := 0,
    updatedAt := 999 }

/-- Auth state for the C6 witness: the live session, empty cache. -/
def c6State : AuthState := ⟨[c6Session], []⟩

/-! ## Helper lemmas -/

/-- A filtered list satisfies its filter predicate everywhere. -/
theorem all_holds_on_filter {α : Type} (p : α → Bool) (l : List α) :
    (l.filter p).all p = true := by
  simp only [List.all_eq_true]
  intro a ha
  exact (List.mem_filter.mp ha).2

/-- After `deleteSession`, no database row carries the deleted id. -/
theorem deleteSession_db_all (st : AuthState) (sid : String) :
    ((AuthFlow.deleteSession st sid).db.all (fun r => ¬ r.id = sid)) = true :=
  all_holds_on_filter _ st.db

/-- After `deleteSession`, the cache holds nothing under the deleted id. -/
theorem deleteSession_cacheGet (st : AuthState) (sid : String) :
    AuthFlow.cacheGet (AuthFlow.deleteSession st sid).cache sid = none := by
  have h : (AuthFlow.deleteSession st sid).cache.find?
      (fun p => p.1 = sid) = none := by
    rw [List.find?_eq_none]
    intro x hx
    have hpx := (List.mem_filter.mp hx).2
    simpa using hpx
  simp [AuthFlow.cacheGet, h]

/-! ## Theorems -/

/-- Claim C1 evaluated at its own concrete scenario: with the cap set to 2,
creating sessions A, B, C for user U leaves all three sessions live and
`getUserSessions` returns [A, B, C] — not [B, C] as the session-cap
invariant requires. The count query selects the session id column, so the
code compares `Number(firstLiveSessionId)` (NaN for a UUID) with the cap
and never evicts. -/
theorem c1_session_cap_scenario :
    (SessionService.getUserSessions c1Step3 "U" 4).map (fun s => s.id) =
      [c1IdA, c1IdB, c1IdC] ∧
    ¬ ((SessionService.getUserSessions c1Step3 "U" 4).map (fun s => s.id) =
      [c1IdB, c1IdC]) ∧
    c1Step3.db.length = 3 := by
  decide

/-- Counterexample to claim C5: the session with id "s1" is present with
`expiresAt = 10` (in the past at any observation time after 10), yet
`getSession` returns the record, not `none` — `getSession` performs no
expiry check at all. -/
theorem c5_counterexample :
    c5Store.db.map (fun r => r.expiresAt) = [10] ∧
    (SessionService.getSession c5Store "s1").1 =
      some { id := "s1", userId := "U", accessToken := "tokA",
             refreshToken := "tokR", expiresAt := 10 } := by
  decide

/-- Claim C5 as amended: `getSession` returns whatever record the cache or
the table holds for the id, regardless of its `expiresAt`; lazy expiry
detection is performed by its callers (the authenticate middleware and the
refresh flow), not by `getSession` itself. -/
theorem c5_get_session_ignores_expiry (st : SessionStore) (sid : String)
    (r : SessionRow)
    (hc : SessionService.cacheGet st.cache sid = none)
    (hd : st.db.find? (fun x => x.id = sid) = some r) :
    (SessionService.getSession st sid).1 =
      some { id := r.id, userId := r.userId, accessToken := r.accessToken,
             refreshToken := r.refreshToken, expiresAt := r.expiresAt } := by
  simp [SessionService.getSession, hc, hd]

/-- Witness for the amended C5 at the concrete expired-session store. -/
theorem c5_get_session_ignores_expiry_witness :
    (SessionService.getSession c5Store "s1").1 =
      some { id := "s1", userId := "U", accessToken := "tokA",
             refreshToken := "tokR", expiresAt := 10 } :=
  c5_get_session_ignores_expiry c5Store "s1"
    { id := "s1", userId := "U", accessToken := "tokA",
      refreshToken := "tokR", deviceId := none, userAgent := none,
      ipAddress := none, expiresAt := 10, createdAt := 1, updatedAt := 1 }
    rfl rfl

/-- Claim C10: when a stored session matches the access token but no user
row exists for its userId, `getSessionByAccessToken` returns the session
with role "staff" instead of null. -/
theorem c10_missing_user_defaults_to_staff (st : SessionStore)
    (users : List UserRow) (tok : String) (s : SessionRow)
    (hs : st.db.find? (fun r => r.accessToken = tok) = some s)
    (hu : users.find? (fun u => u.id = s.userId) = none) :
    SessionService.getSessionByAccessToken st users tok =
      some { id := s.id, userId := s.userId, role := "staff" } := by
  simp [SessionService.getSessionByAccessToken, hs, hu]

/-- Witness for C10: a session owned by a userId with no user row yields
role "staff". -/
theorem c10_missing_user_defaults_to_staff_witness :
    SessionService.getSessionByAccessToken c10Store [] "tok9" =
      some { id := "s9", userId := "ghost", role := "staff" } :=
  c10_missing_user_defaults_to_staff c10Store [] "tok9"
    { id := "s9", userId := "ghost", accessToken := "tok9",
      refreshToken := "rtok9", deviceId := none, userAgent := none,
      ipAddress := none, expiresAt := 99, createdAt := 1, updatedAt := 1 }
    rfl rfl

/-- Claim C4: access-token round trip. Verifying a freshly generated access
token returns the original userId, sessionId and role while the configured
access expiry has not elapsed, and fails with an AuthenticationError
("Access token has expired") once it has. -/
theorem c4_access_token_round_trip (cfg : JwtConfig) (u s r : String)
    (issued now : Nat) :
    (now < issued + cfg.accessExpiry →
      JWTService.verifyAccessToken
          (JWTService.generateAccessToken cfg u s r issued) now =
        Except.ok { userId := u, sessionId := s, role := some r,
                    iat := some issued,
                    exp := some (issued + cfg.accessExpiry) }) ∧
    (issued + cfg.accessExpiry ≤ now →
      JWTService.verifyAccessToken
          (JWTService.generateAccessToken cfg u s r issued) now =
        Except.error (AppError.authenticationError
          "Access token has expired")) := by
  constructor
  · intro h
    simp [JWTService.verifyAccessToken, JWTService.generateAccessToken,
      Nat.not_le.mpr h]
  · intro h
    simp [JWTService.verifyAccessToken, JWTService.generateAccessToken, h]

/-- Witness for C4 at concrete inputs (15-minute expiry, checked both before
and at the expiry instant). -/
theorem c4_access_token_round_trip_witness :
    JWTService.verifyAccessToken
        (JWTService.generateAccessToken ⟨900, 604800⟩ "u1" "sess1" "owner" 0)
        100 =
      Except.ok { userId := "u1", sessionId := "sess1", role := some "owner",
                  iat := some 0, exp := some 900 } ∧
    JWTService.verifyAccessToken
        (JWTService.generateAccessToken ⟨900, 604800⟩ "u1" "sess1" "owner" 0)
        900 =
      Except.error (AppError.authenticationError "Access token has expired") :=
  ⟨(c4_access_token_round_trip ⟨900, 604800⟩ "u1" "sess1" "owner" 0 100).1
      (by decide),
   (c4_access_token_round_trip ⟨900, 604800⟩ "u1" "sess1" "owner" 0 900).2
      (by decide)⟩

/-- Claim C3: sliding-window admission formula. For every call on a live
store, markers at or before `now - windowMs` are purged, `allowed` compares
the pre-insert count with `maxRequests`, `remaining` is
`max 0 (maxRequests - count - 1)`, and a new marker is always inserted (even
on a rejected request). Concretely, four immediate calls with limit 3 and a
60000 ms window return allowed true,true,true,false with remaining 2,1,0,0. -/
theorem c3_sliding_window_admission :
    (∀ (store : List Int) (now maxRequests windowMs : Int),
      (RateLimitService.checkRateLimitPure store now maxRequests
          windowMs).1.allowed =
        decide
          (((RateLimitService.purgeWindow store (now - windowMs)).length : Int)
            < maxRequests) ∧
      (RateLimitService.checkRateLimitPure store now maxRequests
          windowMs).1.remaining =
        max 0 (maxRequests -
          ((RateLimitService.purgeWindow store (now - windowMs)).length : Int)
          - 1) ∧
      (RateLimitService.checkRateLimitPure store now maxRequests windowMs).2 =
        RateLimitService.purgeWindow store (now - windowMs) ++ [now]) ∧
    (RateLimitService.checkRateLimitPure [] 1000000 3 60000 =
        ({ allowed := true, remaining := 2, resetAt := 1060000 },
         [1000000]) ∧
     RateLimitService.checkRateLimitPure [1000000] 1000000 3 60000 =
        ({ allowed := true, remaining := 1, resetAt := 1060000 },
         [1000000, 1000000]) ∧
     RateLimitService.checkRateLimitPure [1000000, 1000000] 1000000 3 60000 =
        ({ allowed := true, remaining := 0, resetAt := 1060000 },
         [1000000, 1000000, 1000000]) ∧
     RateLimitService.checkRateLimitPure [1000000, 1000000, 1000000]
          1000000 3 60000 =
        ({ allowed := false, remaining := 0, resetAt := 1060000 },
         [1000000, 1000000, 1000000, 1000000])) := by
  refine ⟨fun store now maxRequests windowMs => ⟨rfl, rfl, rfl⟩, ?_⟩
  decide

/-- Claim C7: the rate limiter fails open. When the underlying store
operation fails, `checkRateLimit` returns allowed with `remaining` equal to
the full limit and `resetAt = now + windowMs`, for every identifier state and
parameters. -/
theorem c7_rate_limiter_fails_open (now maxRequests windowMs : Int) :
    (RateLimitService.checkRateLimit (Except.error ()) now maxRequests
        windowMs).1 =
      { allowed := true, remaining := maxRequests,
        resetAt := now + windowMs } := rfl

/-- Claim C2: session revocation takes precedence over token liveness. For a
token whose signature and expiry verify, authentication fails with an
AuthenticationError when the referenced session no longer exists, and it can
only succeed when the token equals the accessToken currently stored on that
session. -/
theorem c2_session_revocation_beats_token_liveness (tok : SignedJwt)
    (now : Nat) (st : AuthState) (payload : JWTPayload)
    (hv : JWTService.verifyAccessToken tok now = Except.ok payload) :
    ((AuthFlow.getSession st payload.sessionId).1 = none →
      (AuthFlow.authenticate tok now st).1 =
        Except.error (AppError.authenticationError "Session not found")) ∧
    (∀ ctx, (AuthFlow.authenticate tok now st).1 = Except.ok ctx →
      ∃ s, (AuthFlow.getSession st payload.sessionId).1 = some s ∧
        s.accessToken = tok) := by
  constructor
  · intro h
    simp [AuthFlow.authenticate, hv, h]
  · intro ctx h
    cases hs : (AuthFlow.getSession st payload.sessionId).1 with
    | none => simp [AuthFlow.authenticate, hv, hs] at h
    | some s =>
      by_cases hexp : s.expiresAt < now
      · simp [AuthFlow.authenticate, hv, hs, hexp] at h
      · by_cases htok : s.accessToken = tok
        · exact ⟨s, rfl, htok⟩
        · simp [AuthFlow.authenticate, hv, hs, hexp, htok] at h

/-- Witness for C2: a signature-valid, unexpired token whose session has
been deleted (empty store) is rejected with "Session not found". -/
theorem c2_session_revocation_witness :
    (AuthFlow.authenticate c2Token 1 ⟨[], []⟩).1 =
      Except.error (AppError.authenticationError "Session not found") :=
  (c2_session_revocation_beats_token_liveness c2Token 1 ⟨[], []⟩
      ⟨"u", "sX", some "staff", some 0, some 900⟩ rfl).1 rfl

/-- Claim C6: refresh-token rotation is not enforced. When the presented
refresh token verifies, the embedded session is live, and its user exists,
the refresh flow succeeds with a freshly generated pair even though the
presented token differs from the session's stored refreshToken; no equality
check against the stored token is performed. -/
theorem c6_refresh_rotation_not_enforced (cfg : JwtConfig)
    (users : List UserRow) (tok : SignedJwt) (now : Nat) (st : AuthState)
    (payload : RefreshPayload) (s : AuthSessionView) (u : UserRow)
    (hv : JWTService.verifyRefreshToken tok now = Except.ok payload)
    (hs : (AuthFlow.getSession st payload.sessionId).1 = some s)
    (hlive : ¬ s.expiresAt < now)
    (hu : users.find? (fun x => x.id = s.userId) = some u)
    (_hrot : ¬ s.refreshToken = tok) :
    (AuthFlow.refreshTokenFlow cfg users tok now st).1 =
      Except.ok
        { accessToken := JWTService.generateAccessToken cfg u.id s.id u.role now,
          refreshToken := JWTService.generateRefreshToken cfg u.id s.id now } := by
  simp [AuthFlow.refreshTokenFlow, hv, hs, hlive, hu]

/-- Witness for C6: a rotated-away refresh token (issued at 0) differing
from the stored one (issued at 999) still refreshes successfully. -/
theorem c6_refresh_rotation_witness :
    (AuthFlow.refreshTokenFlow cfg0 [⟨"u", "owner"⟩] c6Presented 1050
        c6State).1 =
      Except.ok
        { accessToken := JWTService.generateAccessToken cfg0 "u" "sR" "owner" 1050,
          refreshToken := JWTService.generateRefreshToken cfg0 "u" "sR" 1050 } :=
  c6_refresh_rotation_not_enforced cfg0 [⟨"u", "owner"⟩] c6Presented 1050
    c6State ⟨"u", "sR"⟩
    ⟨"sR", "u", JWTService.generateAccessToken cfg0 "u" "sR" "owner" 999,
     c6Stored, 1000000⟩
    ⟨"u", "owner"⟩ rfl rfl (by decide) rfl (by decide)

/-- Claim C8: refreshing with a token whose embedded session exists but is
expired raises AuthenticationError("Session expired"), and that session is
removed from both the persistent store and the cache. -/
theorem c8_refresh_expired_deletes_session (cfg : JwtConfig)
    (users : List UserRow) (tok : SignedJwt) (now : Nat) (st : AuthState)
    (payload : RefreshPayload) (s : AuthSessionView)
    (hv : JWTService.verifyRefreshToken tok now = Except.ok payload)
    (hs : (AuthFlow.getSession st payload.sessionId).1 = some s)
    (hexp : s.expiresAt < now) :
    (AuthFlow.refreshTokenFlow cfg users tok now st).1 =
      Except.error (AppError.authenticationError "Session expired") ∧
    ((AuthFlow.refreshTokenFlow cfg users tok now st).2.db.all
      (fun r => ¬ r.id = s.id)) = true ∧
    AuthFlow.cacheGet (AuthFlow.refreshTokenFlow cfg users tok now st).2.cache
      s.id = none := by
  have hred : AuthFlow.refreshTokenFlow cfg users tok now st =
      (Except.error (AppError.authenticationError "Session expired"),
       AuthFlow.deleteSession (AuthFlow.getSession st payload.sessionId).2
         s.id) := by
    simp [AuthFlow.refreshTokenFlow, hv, hs, hexp]
  rw [hred]
  exact ⟨rfl, deleteSession_db_all _ _, deleteSession_cacheGet _ _⟩

/-- Counterexample to claim C9: `c9Token` is not a three-part JWT whose
payload carries a numeric exp claim — its middle part decodes to the JSON
object binding "exp" to the string "ab" — yet `isTokenExpired` returns
false (reported live), because the JS product `"ab" * 1000` is NaN and
`NaN < Date.now()` is false. -/
theorem c9_counterexample :
    JWTService.decodeToken c9Token =
      some (JSValue.obj [("exp", JSValue.str "ab")]) ∧
    JWTService.isTokenExpired c9Token 1700000000000 = false :=
  ⟨rfl, rfl⟩

/-- Claim C9 as amended: `isTokenExpired` returns true whenever the token
fails to decode or the decoded payload lacks a truthy exp claim; but when
the payload carries a truthy exp whose ToNumber coercion is NaN (a truthy
non-numeric claim), it returns false — such tokens are reported live, not
expired. -/
theorem c9_token_expiry_fail_closed_except_nan (token : String) (now : ℚ) :
    (JWTService.decodeToken token = none →
      JWTService.isTokenExpired token now = true) ∧
    (∀ v, JWTService.decodeToken token = some v →
      (truthy v = false ∨ truthy (getField v "exp") = false) →
      JWTService.isTokenExpired token now = true) ∧
    (∀ v, JWTService.decodeToken token = some v → truthy v = true →
      truthy (getField v "exp") = true →
      toNumber (getField v "exp") = none →
      JWTService.isTokenExpired token now = false) := by
  refine ⟨?_, ?_, ?_⟩
  · intro h
    simp [JWTService.isTokenExpired, h]
  · intro v hv hcase
    rcases hcase with h | h <;> simp [JWTService.isTokenExpired, hv, h]
  · intro v hv h1 h2 h3
    simp [JWTService.isTokenExpired, hv, h1, h2, h3]

/-- Witness for the amended C9: a one-part string fails to decode and is
reported expired. -/
theorem c9_token_expiry_fail_closed_witness :
    JWTService.isTokenExpired "x" 0 = true :=
  (c9_token_expiry_fail_closed_except_nan "x" 0).1 rfl

/-- Witness for C8: refreshing against the concrete expired session yields
"Session expired". -/
theorem c8_refresh_expired_witness :
    (AuthFlow.refreshTokenFlow cfg0 [⟨"u", "owner"⟩] c8Token 50 c8State).1 =
      Except.error (AppError.authenticationError "Session expired") :=
  (c8_refresh_expired_deletes_session cfg0 [⟨"u", "owner"⟩] c8Token 50
      c8State ⟨"u", "sE"⟩
      ⟨"sE", "u", JWTService.generateAccessToken cfg0 "u" "sE" "owner" 0,
       c8Token, 10⟩
      rfl rfl (by decide)).1

end HonoCommerce
